import Mathlib

/-!
Verification of the visual-product-matcher backend (`src/app.py`,
`src/check_urls.py`).

Shallow embedding conventions:
* Feature vectors are lists of rationals (`Vec`); the scalar similarity
  computed by `(upload_features @ prod_features.T).item()` is the dot
  product of the two vectors.
* A catalog product is a JSON object; `product["id"]` / `product["image"]`
  raise `KeyError` when the key is absent, so those fields are `Option`s,
  while `product.get("name", "")` / `product.get("category", "")` default
  to the empty string.
* Image loading plus CLIP encoding is abstracted by a function
  `loadImg : String → Option Vec`; `none` means the `try` block of
  `get_image_features` raised (bad URL, unreadable file, failed download),
  in which case the source returns `torch.zeros(1, 512)`.
* Python's `list.sort(key=..., reverse=True)` is a stable sort in
  non-increasing key order, embedded as `List.mergeSort` with the
  comparison `scoreLe a b = (b.score ≤ a.score)`.
-/

/-- A feature vector (a row of a torch tensor). -/
abbrev Vec := List ℚ

/-- Dot product, the similarity `(upload_features @ prod_features.T).item()`. -/
def dot (v w : Vec) : ℚ := (List.zipWith (· * ·) v w).sum

/-- `torch.zeros(1, n)` as a single row. -/
def zeros (n : Nat) : Vec := List.replicate n (0 : ℚ)

/-- A catalog product as read from `products.json` in `app.py`. -/
structure Product where
  id? : Option String
  image? : Option String
  name? : Option String
  category? : Option String
deriving Repr, DecidableEq

/-- One result dictionary appended by the loop of `match_products`. -/
structure MatchResult where
  id : String
  score : ℚ
  name : String
  image : String
  category : String
deriving Repr, DecidableEq

/-- `get_image_features` (app.py lines 52-70): tries to load and encode the
image; on any exception while loading it returns `torch.zeros(1, 512)`.
`loadImg` abstracts the successful path (download/open, preprocess, encode,
normalize); `none` models the caught exception. -/
def get_image_features (loadImg : String → Option Vec) (src : String) : Vec :=
  match loadImg src with
  | none => zeros 512
  | some v => v

/-- The body of the `try` block of the loop in `match_products`
(app.py lines 80-90): accesses `product["image"]`, computes the product
features and the similarity, then builds the result dictionary (accessing
`product["id"]`).  `none` models the `except` path, i.e. a `KeyError` on a
missing `"image"` or `"id"` key. -/
def procProduct (loadImg : String → Option Vec) (upload : Vec) (p : Product) :
    Option MatchResult :=
  match p.image? with
  | none => none
  | some img =>
    let prod_features := get_image_features loadImg img
    let similarity := dot upload prod_features
    match p.id? with
    | none => none
    | some pid =>
      some ⟨pid, similarity, p.name?.getD "", img, p.category?.getD ""⟩

/-- The `for product in products` loop of `match_products`
(app.py lines 78-92): each product is tried in order; on an exception the
loop prints a warning and `continue`s, otherwise the result is appended. -/
def collectResults (loadImg : String → Option Vec) (upload : Vec) :
    List Product → List MatchResult
  | [] => []
  | p :: rest =>
    match procProduct loadImg upload p with
    | some r => r :: collectResults loadImg upload rest
    | none => collectResults loadImg upload rest

/-- `THRESHOLD = 0.7` (app.py line 96). -/
def THRESHOLD : ℚ := 7 / 10

/-- The comparison used by `results.sort(key=lambda x: x["score"], reverse=True)`:
`a` may precede `b` exactly when `b.score ≤ a.score`. -/
def scoreLe (a b : MatchResult) : Bool := decide (b.score ≤ a.score)

/-- `match_products` (app.py lines 74-98): compute the upload features,
run the per-product loop, sort by score descending, keep scores at or above
`THRESHOLD`, return the first 100. -/
def match_products (loadImg : String → Option Vec) (uploaded : String)
    (products : List Product) : List MatchResult :=
  let upload_features := get_image_features loadImg uploaded
  let results := collectResults loadImg upload_features products
  let sorted := results.mergeSort scoreLe
  let filtered := sorted.filter (fun r => decide (THRESHOLD ≤ r.score))
  filtered.take 100

/-- The result entry the spec's pipeline builds for one product: the product
mapped to the dot product of its embedding with the input embedding. -/
def specEntry (upload : Vec) (embed : Product → Vec) (p : Product) : MatchResult :=
  ⟨p.id?.getD "", dot upload (embed p), p.name?.getD "",
   p.image?.getD "", p.category?.getD ""⟩

/-- The pipeline in the spec's words: map each product to the dot product of
its embedding with the input embedding, sort by score descending, filter to
scores at or above the threshold, then slice to the first 100 elements. -/
def spec_match_pipeline (embed : Product → Vec) (upload : Vec)
    (ps : List Product) : List MatchResult :=
  (((ps.map (specEntry upload embed)).mergeSort scoreLe).filter
    (fun r => decide (THRESHOLD ≤ r.score))).take 100

/-- The per-product loop of `match_products`, instrumented with the list of
arguments passed to `get_image_features` (app.py line 81): for each product
the `"image"` key is read first — a missing key raises before any call —
then `get_image_features(product["image"])` runs, and a missing `"id"` key
raises only after that call. -/
def collectResultsT (loadImg : String → Option Vec) (upload : Vec) :
    List Product → List MatchResult × List String
  | [] => ([], [])
  | p :: rest =>
    match p.image? with
    | none => collectResultsT loadImg upload rest
    | some img =>
      let prod_features := get_image_features loadImg img
      let similarity := dot upload prod_features
      let acc := collectResultsT loadImg upload rest
      match p.id? with
      | none => (acc.1, img :: acc.2)
      | some pid =>
        (⟨pid, similarity, p.name?.getD "", img, p.category?.getD ""⟩ :: acc.1,
         img :: acc.2)

/-- `match_products` instrumented with the sequence of `get_image_features`
invocations it performs while handling one request: one call for the
uploaded image (app.py line 76) followed by the calls issued by the product
loop (app.py line 81). -/
def match_products_instr (loadImg : String → Option Vec) (uploaded : String)
    (ps : List Product) : List MatchResult × List String :=
  let upload_features := get_image_features loadImg uploaded
  let (results, tr) := collectResultsT loadImg upload_features ps
  ((((results.mergeSort scoreLe).filter
      (fun r => decide (THRESHOLD ≤ r.score))).take 100),
   uploaded :: tr)

/-- The module-level globals of `app.py`: `model`, `preprocess` and
`products`, all initialized to `None` (lines 15-17). `M` and `P` are the
types of the CLIP model and of its preprocessing function. -/
structure AppState (M : Type) (P : Type) where
  model : Option M
  preprocess : Option P
  products : Option (List Product)

/-- `load_model` (app.py lines 24-30): if `model is None or preprocess is
None`, run `clip.load` (abstracted as the pair `clipLoad`) and store both
globals; return the pair together with the updated globals. -/
def load_model {M P : Type} (clipLoad : M × P) (s : AppState M P) :
    (M × P) × AppState M P :=
  match s.model, s.preprocess with
  | some m, some p => ((m, p), s)
  | _, _ =>
    (clipLoad, { s with model := some clipLoad.1, preprocess := some clipLoad.2 })

/-- `load_products` (app.py lines 35-45): if `products is None`, read
`products.json` — `disk = none` models a missing file, in which case a
`FileNotFoundError` is raised — and store the parsed list in the global. -/
def load_products {M P : Type} (disk : Option (List Product)) (s : AppState M P) :
    Except String (List Product × AppState M P) :=
  match s.products with
  | some ps => .ok (ps, s)
  | none =>
    match disk with
    | none => .error "products.json not found"
    | some ps => .ok (ps, { s with products := some ps })

/-- The JSON body of a match request; `image_url` is `data.get("image_url")`. -/
structure BodyData where
  image_url : Option String

/-- A POST request to `/api/match`: `files_image` is `request.files["image"]`
when a multipart file named `"image"` is present (the file handle is kept
abstract as a `String`), and `json` is the result of `request.get_json()`
(`none` models a null or absent JSON body, replaced by `{}` via `or {}`). -/
structure ApiRequest where
  files_image : Option String
  json : Option BodyData

/-- The argument handed to `match_products` by the endpoint: either the
uploaded file or the image URL. -/
inductive ImageInput
  | file (f : String)
  | url (u : String)
deriving Repr, DecidableEq

/-- A response of the `/api/match` endpoint: `jsonify(matches)` (a JSON
list) with a status code, or `jsonify({"error": message})` (a JSON object
with an `"error"` key) with a status code. -/
inductive ApiResponse
  | list (ms : List MatchResult) (status : Nat)
  | err (message : String) (status : Nat)
deriving Repr, DecidableEq

/-- `matches = match_products(...)` followed by `return jsonify(matches)`,
under the surrounding `try`/`except` of `api_match` (app.py lines 127-144):
the call to `match_products` may raise (`.error e`), in which case the
handler returns `jsonify({"error": str(exc)}), 500`. -/
def runAndRespond (runMatch : ImageInput → Except String (List MatchResult))
    (inp : ImageInput) : ApiResponse :=
  match runMatch inp with
  | .ok ms => .list ms 200
  | .error e => .err e 500

/-- `api_match` (app.py lines 126-144): if a multipart file named `"image"`
is present, match on it; otherwise read the JSON body (defaulting to `{}`),
and if `image_url` is falsy (absent or empty) return a 400 error, else
match on the URL. Any exception from matching yields a 500 error. -/
def api_match (runMatch : ImageInput → Except String (List MatchResult))
    (req : ApiRequest) : ApiResponse :=
  match req.files_image with
  | some f => runAndRespond runMatch (.file f)
  | none =>
    let data := req.json.getD ⟨none⟩
    match data.image_url with
    | none => .err "No image file or image_url provided" 400
    | some "" => .err "No image file or image_url provided" 400
    | some u => runAndRespond runMatch (.url u)

/-- The outcome of `requests.head(url, timeout=5)` in `check_urls.py`:
a response with a status code, or a raised `requests.RequestException`. -/
inductive HeadResult
  | status (code : Nat)
  | exc (msg : String)
deriving Repr, DecidableEq

/-- An entry of `data["products"]` in `check_urls.py`; only its `"url"`
key is read. -/
structure UrlProduct where
  url : String
deriving Repr, DecidableEq

/-- The body of the loop of `check_urls.py` (lines 14-27): classify one
URL from the outcome of the HEAD request. -/
def classify (url : String) (r : HeadResult) : String :=
  match r with
  | .status code =>
    if code == 200 then "✅ ACTIVE - " ++ url
    else "⚠️ INACTIVE (" ++ toString code ++ ") - " ++ url
  | .exc e => "❌ ERROR - " ++ url ++ " (" ++ e ++ ")"

/-- The `for product in data["products"]` loop of `check_urls.py`: one
status line is appended to `results` per product, in order. `head`
abstracts `requests.head(url, timeout=5)`. -/
def check_urls (head : String → HeadResult) : List UrlProduct → List String
  | [] => []
  | p :: rest => classify p.url (head p.url) :: check_urls head rest

theorem scoreLe_trans (a b c : MatchResult) :
    scoreLe a b → scoreLe b c → scoreLe a c := by
  simp only [scoreLe, decide_eq_true_eq]
  exact fun h1 h2 => le_trans h2 h1

theorem scoreLe_total (a b : MatchResult) : scoreLe a b || scoreLe b a := by
  simp only [scoreLe, Bool.or_eq_true, decide_eq_true_eq]
  exact le_total b.score a.score

/-- **C1.** Every entry of the list returned by `match_products` has score
at least `THRESHOLD = 7/10`, and the list is ordered by non-increasing
score. -/
theorem match_products_threshold_sorted
    (loadImg : String → Option Vec) (uploaded : String)
    (products : List Product) :
    (∀ r ∈ match_products loadImg uploaded products, THRESHOLD ≤ r.score) ∧
    (match_products loadImg uploaded products).Pairwise
      (fun a b => b.score ≤ a.score) := by
  unfold match_products
  constructor
  · intro r hr
    have := List.of_mem_filter (List.mem_of_mem_take hr)
    simpa using this
  · have hsorted :
        ((collectResults loadImg (get_image_features loadImg uploaded) products).mergeSort
          scoreLe).Pairwise (fun a b => scoreLe a b = true) :=
      List.sorted_mergeSort scoreLe_trans scoreLe_total _
    have hfilter := hsorted.filter (fun r => decide (THRESHOLD ≤ r.score))
    have htake := hfilter.sublist (List.take_sublist 100 _)
    refine htake.imp ?_
    intro a b h
    simpa [scoreLe] using h

theorem match_products_eq (loadImg : String → Option Vec) (uploaded : String)
    (products : List Product) :
    match_products loadImg uploaded products =
      (((collectResults loadImg (get_image_features loadImg uploaded)
          products).mergeSort scoreLe).filter
            (fun r => decide (THRESHOLD ≤ r.score))).take 100 := rfl

theorem collectResults_eq_filterMap (loadImg : String → Option Vec)
    (upload : Vec) (ps : List Product) :
    collectResults loadImg upload ps = ps.filterMap (procProduct loadImg upload) := by
  induction ps with
  | nil => rfl
  | cons p rest ih =>
    simp only [collectResults, List.filterMap_cons]
    cases procProduct loadImg upload p <;> simp [ih]

theorem collectResults_length_le (loadImg : String → Option Vec)
    (upload : Vec) (ps : List Product) :
    (collectResults loadImg upload ps).length ≤ ps.length := by
  rw [collectResults_eq_filterMap]
  exact List.length_filterMap_le _ _

/-- **C9.** The list returned by `match_products` has at most 100 entries,
and never more entries than the catalog has products. -/
theorem match_products_length_le
    (loadImg : String → Option Vec) (uploaded : String)
    (products : List Product) :
    (match_products loadImg uploaded products).length ≤ 100 ∧
    (match_products loadImg uploaded products).length ≤ products.length := by
  rw [match_products_eq]
  refine ⟨List.length_take_le _ _, ?_⟩
  refine le_trans (List.length_take_le' _ _) ?_
  refine le_trans (List.length_filter_le _ _) ?_
  rw [List.length_mergeSort]
  exact collectResults_length_le _ _ _

theorem dot_zeros (n : Nat) (v : Vec) : dot (zeros n) v = 0 := by
  unfold dot zeros
  induction v generalizing n with
  | nil => simp
  | cons x xs ih =>
    cases n with
    | zero => simp
    | succ m =>
      simp only [List.replicate_succ, List.zipWith_cons_cons, List.sum_cons,
        zero_mul, zero_add]
      exact ih m

/-- **C8.** If the uploaded image cannot be loaded, `get_image_features`
returns the all-zero 512-vector instead of raising; every collected product
similarity is then `0`, which is below the `0.7` threshold, so
`match_products` returns the empty list. -/
theorem match_products_bad_image_empty
    (loadImg : String → Option Vec) (uploaded : String)
    (products : List Product) (h : loadImg uploaded = none) :
    get_image_features loadImg uploaded = zeros 512 ∧
    (∀ r ∈ collectResults loadImg (get_image_features loadImg uploaded) products,
      r.score = 0) ∧
    match_products loadImg uploaded products = [] := by
  have hfeat : get_image_features loadImg uploaded = zeros 512 := by
    unfold get_image_features
    rw [h]
  have hscore : ∀ r ∈ collectResults loadImg (get_image_features loadImg uploaded)
      products, r.score = 0 := by
    intro r hr
    rw [collectResults_eq_filterMap] at hr
    obtain ⟨p, _, hp⟩ := List.mem_filterMap.mp hr
    unfold procProduct at hp
    cases himg : p.image? with
    | none => rw [himg] at hp; exact absurd hp (by simp)
    | some img =>
      rw [himg] at hp
      cases hid : p.id? with
      | none => rw [hid] at hp; exact absurd hp (by simp)
      | some pid =>
        rw [hid] at hp
        simp only [Option.some.injEq] at hp
        rw [← hp, hfeat]
        exact dot_zeros 512 _
  refine ⟨hfeat, hscore, ?_⟩
  rw [match_products_eq]
  have hall : ∀ r ∈ (collectResults loadImg (get_image_features loadImg uploaded)
      products).mergeSort scoreLe, ¬ (decide (THRESHOLD ≤ r.score) = true) := by
    intro r hr
    have hmem : r ∈ collectResults loadImg (get_image_features loadImg uploaded)
        products := (List.mergeSort_perm _ scoreLe).mem_iff.mp hr
    have := hscore r hmem
    simp only [this, decide_eq_true_eq, THRESHOLD]
    norm_num
  rw [List.filter_eq_nil_iff.mpr hall]
  rfl

/-- **C8 witness.** A concrete run: the upload fails to load, the one-product
catalog yields similarity `0`, and the match result is empty. -/
theorem match_products_bad_image_empty_witness :
    get_image_features (fun _ => none) "u" = zeros 512 ∧
    (∀ r ∈ collectResults (fun _ => none)
        (get_image_features (fun _ => none) "u")
        [⟨some "p1", some "img1", none, none⟩], r.score = 0) ∧
    match_products (fun _ => none) "u" [⟨some "p1", some "img1", none, none⟩] = [] :=
  match_products_bad_image_empty (fun _ => none) "u"
    [⟨some "p1", some "img1", none, none⟩] rfl

/-- **C5.** A catalog product whose processing raises is simply skipped:
with `procProduct` failing on `p`, the loop over `pre ++ [p] ++ post`
produces exactly the results of `pre` followed by the results of `post` —
`p` is omitted, every other product is still processed, and the match is
not aborted. -/
theorem collectResults_skips_failing
    (loadImg : String → Option Vec) (upload : Vec)
    (pre post : List Product) (p : Product)
    (h : procProduct loadImg upload p = none) :
    collectResults loadImg upload (pre ++ p :: post) =
      collectResults loadImg upload pre ++ collectResults loadImg upload post := by
  simp only [collectResults_eq_filterMap, List.filterMap_append, List.filterMap_cons, h]

/-- **C3.** On any catalog whose products carry their `"id"` and `"image"`
keys and whose images load to their embeddings, `match_products` equals the
spec's composition: map to dot products, sort descending, filter at the
threshold, slice to 100 — in that order of steps. -/
theorem match_products_refines_spec
    (loadImg : String → Option Vec) (embed : Product → Vec) (uploaded : String)
    (ps : List Product)
    (hwf : ∀ p ∈ ps, ∃ pid img, p.id? = some pid ∧ p.image? = some img ∧
      loadImg img = some (embed p)) :
    match_products loadImg uploaded ps =
      spec_match_pipeline embed (get_image_features loadImg uploaded) ps := by
  rw [match_products_eq]
  unfold spec_match_pipeline
  have hcollect : collectResults loadImg (get_image_features loadImg uploaded) ps =
      ps.map (specEntry (get_image_features loadImg uploaded) embed) := by
    induction ps with
    | nil => rfl
    | cons p rest ih =>
      obtain ⟨pid, img, hid, himg, hload⟩ := hwf p (List.mem_cons_self p rest)
      have hrest := ih (fun q hq => hwf q (List.mem_cons_of_mem p hq))
      simp only [collectResults, List.map_cons]
      have hproc : procProduct loadImg (get_image_features loadImg uploaded) p =
          some (specEntry (get_image_features loadImg uploaded) embed p) := by
        simp [procProduct, specEntry, get_image_features, himg, hid, hload]
      rw [hproc, hrest]
  rw [hcollect]

/-- **C3 witness.** A concrete two-product catalog with loadable images on
which `match_products` and the spec pipeline agree. -/
theorem match_products_refines_spec_witness :
    match_products
        (fun s => if s = "a" then some [1] else if s = "b" then some [0] else some [1, 0])
        "u"
        [⟨some "p1", some "a", none, none⟩, ⟨some "p2", some "b", none, none⟩] =
      spec_match_pipeline
        (fun p => if p.image? = some "a" then [1] else [0])
        (get_image_features
          (fun s => if s = "a" then some [1] else if s = "b" then some [0] else some [1, 0])
          "u")
        [⟨some "p1", some "a", none, none⟩, ⟨some "p2", some "b", none, none⟩] := by
  refine match_products_refines_spec _ _ "u" _ ?_
  intro p hp
  simp only [List.mem_cons, List.not_mem_nil, or_false] at hp
  rcases hp with h | h <;> subst h
  · exact ⟨"p1", "a", rfl, rfl, rfl⟩
  · exact ⟨"p2", "b", rfl, rfl, rfl⟩

theorem collectResultsT_fst (loadImg : String → Option Vec) (upload : Vec)
    (ps : List Product) :
    (collectResultsT loadImg upload ps).1 = collectResults loadImg upload ps := by
  induction ps with
  | nil => rfl
  | cons p rest ih =>
    simp only [collectResultsT, collectResults, procProduct]
    cases p.image? with
    | none => exact ih
    | some img =>
      cases p.id? with
      | none => simpa using ih
      | some pid =>
        simp only []
        rw [ih]

theorem collectResultsT_snd (loadImg : String → Option Vec) (upload : Vec)
    (ps : List Product) :
    (collectResultsT loadImg upload ps).2 = ps.filterMap Product.image? := by
  induction ps with
  | nil => rfl
  | cons p rest ih =>
    simp only [collectResultsT, List.filterMap_cons]
    cases p.image? with
    | none => exact ih
    | some img =>
      cases p.id? with
      | none => simpa using ih
      | some pid => simpa using ih

/-- **C2 counterexample.** A concrete request against a two-product catalog:
the embedding function is invoked on both catalog product images while the
request is handled (trace `["u", "a", "b"]`), so the catalog embeddings are
recomputed per request, not precomputed. -/
theorem match_products_recomputes_catalog :
    (match_products_instr (fun _ => some [1]) "u"
        [⟨some "p1", some "a", none, none⟩, ⟨some "p2", some "b", none, none⟩]).2 =
      ["u", "a", "b"] ∧
    "a" ∈ (match_products_instr (fun _ => some [1]) "u"
        [⟨some "p1", some "a", none, none⟩, ⟨some "p2", some "b", none, none⟩]).2 ∧
    "a" ∈ [⟨some "p1", some "a", none, none⟩,
           (⟨some "p2", some "b", none, none⟩ : Product)].filterMap Product.image? := by
  refine ⟨rfl, ?_, by decide⟩
  rw [show (match_products_instr (fun _ => some [1]) "u"
      [⟨some "p1", some "a", none, none⟩, ⟨some "p2", some "b", none, none⟩]).2 =
      ["u", "a", "b"] from rfl]
  decide

/-- **C2 (amended).** During every request, `match_products` calls
`get_image_features` once for the uploaded image and then once per catalog
product whose `"image"` key is present, in catalog order: catalog embeddings
are recomputed on each request rather than precomputed. -/
theorem match_products_embedding_calls
    (loadImg : String → Option Vec) (uploaded : String) (ps : List Product) :
    (match_products_instr loadImg uploaded ps).2 =
      uploaded :: ps.filterMap Product.image? ∧
    (match_products_instr loadImg uploaded ps).1 =
      match_products loadImg uploaded ps := by
  unfold match_products_instr
  rw [match_products_eq]
  constructor
  · simp [collectResultsT_snd]
  · simp [collectResultsT_fst]

/-- **C5 witness.** A concrete catalog where the middle product is missing
its `"id"` key: it is skipped and the two other products are both
processed. -/
theorem collectResults_skips_failing_witness :
    procProduct (fun _ => some [1]) [1] ⟨none, some "b", none, none⟩ = none ∧
    collectResults (fun _ => some [1]) [1]
        ([⟨some "p1", some "a", none, none⟩] ++
          (⟨none, some "b", none, none⟩ : Product) ::
          [⟨some "p3", some "c", none, none⟩]) =
      collectResults (fun _ => some [1]) [1] [⟨some "p1", some "a", none, none⟩] ++
        collectResults (fun _ => some [1]) [1] [⟨some "p3", some "c", none, none⟩] :=
  ⟨rfl, collectResults_skips_failing (fun _ => some [1]) [1]
    [⟨some "p1", some "a", none, none⟩] [⟨some "p3", some "c", none, none⟩]
    ⟨none, some "b", none, none⟩ rfl⟩

/-- **C6.** `load_model` and `load_products` are lazily memoized through
None-checks on module globals: a call after a successful call returns the
already-loaded object and leaves the globals unchanged, and the first call
stores the loaded objects in the globals. -/
theorem load_memoized {M P : Type} (clipLoad : M × P)
    (disk : Option (List Product)) (s : AppState M P) :
    load_model clipLoad (load_model clipLoad s).2 = load_model clipLoad s ∧
    ((load_model clipLoad s).2.model = some (load_model clipLoad s).1.1 ∧
     (load_model clipLoad s).2.preprocess = some (load_model clipLoad s).1.2) ∧
    (∀ ps s1, load_products disk s = .ok (ps, s1) →
      load_products disk s1 = .ok (ps, s1) ∧ s1.products = some ps) := by
  obtain ⟨m, p, prods⟩ := s
  refine ⟨?_, ?_, ?_⟩
  · cases m <;> cases p <;> rfl
  · cases m <;> cases p <;> exact ⟨rfl, rfl⟩
  · intro ps s1 h
    cases prods with
    | some ps0 =>
      simp only [load_products, Except.ok.injEq, Prod.mk.injEq] at h
      obtain ⟨h1, h2⟩ := h
      subst h1; subst h2
      exact ⟨rfl, rfl⟩
    | none =>
      cases disk with
      | none => simp [load_products] at h
      | some psd =>
        simp only [load_products, Except.ok.injEq, Prod.mk.injEq] at h
        obtain ⟨h1, h2⟩ := h
        subst h1; subst h2
        exact ⟨rfl, rfl⟩

/-- **C6 witness.** A concrete process start: loading the model twice from
empty globals equals loading it once, and reloading products from the state
left by a successful load returns the same list and state. -/
theorem load_memoized_witness :
    load_model ((1 : Nat), (2 : Nat))
        (load_model ((1 : Nat), (2 : Nat)) (⟨none, none, none⟩ : AppState Nat Nat)).2 =
      load_model ((1 : Nat), (2 : Nat)) (⟨none, none, none⟩ : AppState Nat Nat) ∧
    load_products (some ([] : List Product))
        (⟨none, none, some []⟩ : AppState Nat Nat) =
      .ok ([], ⟨none, none, some []⟩) :=
  ⟨(load_memoized ((1 : Nat), (2 : Nat)) (some []) ⟨none, none, none⟩).1,
   ((load_memoized ((1 : Nat), (2 : Nat)) (some [])
      (⟨none, none, none⟩ : AppState Nat Nat)).2.2 [] ⟨none, none, some []⟩ rfl).1⟩

/-- **C4.** A POST to `/api/match` with neither a multipart `"image"` file
nor a non-empty `image_url` in the JSON body gets a 400 response carrying an
`"error"` key, and no matching runs (the response does not depend on the
matcher); when either input is present, matching is attempted on it. -/
theorem api_match_input_validation
    (runMatch : ImageInput → Except String (List MatchResult)) (req : ApiRequest) :
    (req.files_image = none →
      ((req.json.getD ⟨none⟩).image_url = none ∨
       (req.json.getD ⟨none⟩).image_url = some "") →
      (api_match runMatch req = .err "No image file or image_url provided" 400 ∧
       ∀ rm2, api_match rm2 req = api_match runMatch req)) ∧
    (∀ f, req.files_image = some f →
      api_match runMatch req = runAndRespond runMatch (.file f)) ∧
    (∀ u, req.files_image = none → (req.json.getD ⟨none⟩).image_url = some u →
      u ≠ "" → api_match runMatch req = runAndRespond runMatch (.url u)) := by
  refine ⟨?_, ?_, ?_⟩
  · intro h1 h2
    rcases h2 with h2 | h2 <;>
      (constructor
       · simp [api_match, h1, h2]
       · intro rm2; simp [api_match, h1, h2])
  · intro f h1
    simp [api_match, h1]
  · intro u h1 h2 h3
    simp only [api_match, h1, h2]

/-- **C4 witness.** Concrete requests: no file and a null `image_url` gets
the 400 error; a file triggers a match on the file; a non-empty URL triggers
a match on the URL. -/
theorem api_match_input_validation_witness :
    api_match (fun _ => .ok []) ⟨none, some ⟨none⟩⟩ =
      .err "No image file or image_url provided" 400 ∧
    api_match (fun _ => .ok []) ⟨some "f", none⟩ =
      runAndRespond (fun _ => .ok []) (.file "f") ∧
    api_match (fun _ => .ok []) ⟨none, some ⟨some "http://img"⟩⟩ =
      runAndRespond (fun _ => .ok []) (.url "http://img") :=
  ⟨((api_match_input_validation (fun _ => .ok []) ⟨none, some ⟨none⟩⟩).1
      rfl (Or.inl rfl)).1,
   (api_match_input_validation (fun _ => .ok []) ⟨some "f", none⟩).2.1 "f" rfl,
   (api_match_input_validation (fun _ => .ok []) ⟨none, some ⟨some "http://img"⟩⟩).2.2
      "http://img" rfl rfl (by decide)⟩

/-- **C10.** Every response of `/api/match` is either a JSON list with
status 200 or a JSON `{"error": ...}` object with status 400 or 500; in
particular an exception raised by the attempted match is caught and turned
into a 500 response carrying the exception message. -/
theorem api_match_error_responses
    (runMatch : ImageInput → Except String (List MatchResult)) (req : ApiRequest) :
    (∀ ms s, api_match runMatch req = .list ms s → s = 200) ∧
    (∀ e s, api_match runMatch req = .err e s → s = 400 ∨ s = 500) ∧
    (∀ f e, req.files_image = some f → runMatch (.file f) = .error e →
      api_match runMatch req = .err e 500) ∧
    (∀ u e, req.files_image = none → (req.json.getD ⟨none⟩).image_url = some u →
      u ≠ "" → runMatch (.url u) = .error e →
      api_match runMatch req = .err e 500) := by
  refine ⟨?_, ?_, ?_, ?_⟩
  · intro ms s h
    simp only [api_match] at h
    split at h
    · unfold runAndRespond at h
      split at h <;> simp_all
    · split at h <;> try simp_all
      unfold runAndRespond at h
      split at h <;> simp_all
  · intro e s h
    simp only [api_match] at h
    split at h
    · unfold runAndRespond at h
      split at h <;> simp_all
    · split at h <;> try simp_all
      unfold runAndRespond at h
      split at h <;> simp_all
  · intro f e h1 h2
    simp [api_match, h1, runAndRespond, h2]
  · intro u e h1 h2 h3 h4
    simp only [api_match, h1, h2]
    simp [runAndRespond, h4]

/-- **C10 witness.** A concrete request whose match raises: the endpoint
answers 500 with the exception message in the error object. -/
theorem api_match_error_responses_witness :
    api_match (fun _ => .error "boom") ⟨some "f", none⟩ = .err "boom" 500 :=
  (api_match_error_responses (fun _ => .error "boom") ⟨some "f", none⟩).2.2.1
    "f" "boom" rfl rfl

theorem classify_status_ne (url : String) (c : Nat) (h : (c == 200) = false) :
    classify url (.status c) =
      "⚠️ INACTIVE (" ++ toString c ++ ") - " ++ url := by
  simp [classify, h]

theorem check_urls_length (head : String → HeadResult) (data : List UrlProduct) :
    (check_urls head data).length = data.length := by
  induction data with
  | nil => rfl
  | cons p rest ih => simp [check_urls, ih]

theorem check_urls_getElem (head : String → HeadResult) (data : List UrlProduct)
    (i : Nat) (p : UrlProduct) (h : data[i]? = some p) :
    (check_urls head data)[i]? = some (classify p.url (head p.url)) := by
  induction data generalizing i with
  | nil => simp at h
  | cons q rest ih =>
    cases i with
    | zero =>
      simp only [List.getElem?_cons_zero, Option.some.injEq] at h
      subst h
      simp [check_urls]
    | succ j =>
      simp only [List.getElem?_cons_succ] at h
      simp only [check_urls, List.getElem?_cons_succ]
      exact ih j h

/-- **C7.** The URL audit produces one status line per product of
`data["products"]`, in catalog order; a line is the ACTIVE form (first
character `'✅'`) exactly when the HEAD request returned status 200, any
other status yields the INACTIVE line carrying the code, and a raised
request exception yields the ERROR line. -/
theorem check_urls_report (head : String → HeadResult) (data : List UrlProduct) :
    (check_urls head data).length = data.length ∧
    (∀ (i : Nat) (p : UrlProduct), data[i]? = some p →
      (check_urls head data)[i]? = some (classify p.url (head p.url))) ∧
    (∀ url,
      ((classify url (head url)).data.head? = some '✅' ↔
        head url = .status 200) ∧
      (∀ c, head url = .status c → c ≠ 200 →
        classify url (head url) =
          "⚠️ INACTIVE (" ++ toString c ++ ") - " ++ url) ∧
      (∀ e, head url = .exc e →
        classify url (head url) =
          "❌ ERROR - " ++ url ++ " (" ++ e ++ ")")) := by
  refine ⟨check_urls_length head data, ?_, ?_⟩
  · exact fun i p h => check_urls_getElem head data i p h
  intro url
  refine ⟨?_, ?_, ?_⟩
  · cases hr : head url with
    | status c =>
      by_cases hc : c = 200
      · subst hc
        exact iff_of_true rfl rfl
      · have hcc : (c == 200) = false := by simpa using hc
        refine iff_of_false ?_ ?_
        · rw [classify_status_ne url c hcc]
          intro hh
          have hh2 : some '⚠' = some '✅' := hh
          exact absurd hh2 (by decide)
        · intro hh
          injection hh with h
          exact hc h
    | exc e =>
      refine iff_of_false ?_ ?_
      · intro hh
        have hh2 : some '❌' = some '✅' := hh
        exact absurd hh2 (by decide)
      · intro hh
        cases hh
  · intro c hr hc
    rw [hr]
    exact classify_status_ne url c (by simpa using hc)
  · intro e hr
    rw [hr]
    rfl

/-- **C7 witness.** A concrete three-product catalog whose URLs come back
200, 404 and with an exception: one line per product, the 200 line is the
ACTIVE form, the 404 line is the INACTIVE form with the code, the failing
one the ERROR form. -/
theorem check_urls_report_witness :
    (check_urls
        (fun u => if u = "b" then HeadResult.status 404
          else if u = "e" then HeadResult.exc "t" else HeadResult.status 200)
        [⟨"g"⟩, ⟨"b"⟩, ⟨"e"⟩]).length =
      [(⟨"g"⟩ : UrlProduct), ⟨"b"⟩, ⟨"e"⟩].length ∧
    (check_urls
        (fun u => if u = "b" then HeadResult.status 404
          else if u = "e" then HeadResult.exc "t" else HeadResult.status 200)
        [⟨"g"⟩, ⟨"b"⟩, ⟨"e"⟩])[1]? =
      some (classify "b"
        ((fun u => if u = "b" then HeadResult.status 404
          else if u = "e" then HeadResult.exc "t" else HeadResult.status 200) "b")) ∧
    ((classify "g"
        ((fun u => if u = "b" then HeadResult.status 404
          else if u = "e" then HeadResult.exc "t" else HeadResult.status 200)
          "g")).data.head? = some '✅' ↔
      (fun u => if u = "b" then HeadResult.status 404
        else if u = "e" then HeadResult.exc "t" else HeadResult.status 200) "g" =
        .status 200) ∧
    classify "b"
        ((fun u => if u = "b" then HeadResult.status 404
          else if u = "e" then HeadResult.exc "t" else HeadResult.status 200) "b") =
      "⚠️ INACTIVE (" ++ toString 404 ++ ") - " ++ "b" ∧
    classify "e"
        ((fun u => if u = "b" then HeadResult.status 404
          else if u = "e" then HeadResult.exc "t" else HeadResult.status 200) "e") =
      "❌ ERROR - " ++ "e" ++ " (" ++ "t" ++ ")" :=
  ⟨(check_urls_report
      (fun u => if u = "b" then HeadResult.status 404
        else if u = "e" then HeadResult.exc "t" else HeadResult.status 200)
      [⟨"g"⟩, ⟨"b"⟩, ⟨"e"⟩]).1,
   (check_urls_report
      (fun u => if u = "b" then HeadResult.status 404
        else if u = "e" then HeadResult.exc "t" else HeadResult.status 200)
      [⟨"g"⟩, ⟨"b"⟩, ⟨"e"⟩]).2.1 1 ⟨"b"⟩ rfl,
   ((check_urls_report
      (fun u => if u = "b" then HeadResult.status 404
        else if u = "e" then HeadResult.exc "t" else HeadResult.status 200)
      [⟨"g"⟩, ⟨"b"⟩, ⟨"e"⟩]).2.2 "g").1,
   ((check_urls_report
      (fun u => if u = "b" then HeadResult.status 404
        else if u = "e" then HeadResult.exc "t" else HeadResult.status 200)
      [⟨"g"⟩, ⟨"b"⟩, ⟨"e"⟩]).2.2 "b").2.1 404 (by decide) (by decide),
   ((check_urls_report
      (fun u => if u = "b" then HeadResult.status 404
        else if u = "e" then HeadResult.exc "t" else HeadResult.status 200)
      [⟨"g"⟩, ⟨"b"⟩, ⟨"e"⟩]).2.2 "e").2.2 "t" (by decide)⟩
